import Mathlib

/-!
Shallow embedding of the feature-engineering layer (`src/features.py`) of the
BetLogic EPL dashboard.

Modelling conventions:
* a pandas DataFrame of match rows is a `List MatchRow` (all optional
  statistic columns are modelled as present, so the `col in matches.columns`
  guards of the source always take the summing branch);
* a Python result string is a `List Char`;
* Python floats are exact rationals `ℚ`, with `round(x, n)` modelled as
  round-half-to-even at `n` decimal digits (`pyRound`);
* a raised Python exception (`KeyError`, `IndexError`) is modelled by an
  `Option`-valued function returning `none`;
* `DataFrame.sort_values` is modelled by `List.insertionSort` with the
  corresponding (total, transitive) comparison relation: every property
  proved below depends only on sortedness and permutation, not stability.
-/

namespace EPL

/-- One row of the match DataFrame (one played fixture), with the columns
read by `src/features.py`: date, team names, full-time goals and result,
shots, shots on target, fouls, corners, yellow and red cards per side. -/
structure MatchRow where
  date : ℕ
  homeTeam : String
  awayTeam : String
  fthg : ℕ
  ftag : ℕ
  ftr : String
  hshots : ℕ
  ashots : ℕ
  hst : ℕ
  ast : ℕ
  hf : ℕ
  af : ℕ
  hc : ℕ
  ac : ℕ
  hy : ℕ
  ay : ℕ
  hred : ℕ
  ared : ℕ
deriving DecidableEq, Repr

/-- `RESULT_HOME_WIN` from `src/constants.py`. -/
def RESULT_HOME_WIN : String := "H"

/-- `RESULT_DRAW` from `src/constants.py`. -/
def RESULT_DRAW : String := "D"

/-- `RESULT_AWAY_WIN` from `src/constants.py`. -/
def RESULT_AWAY_WIN : String := "A"

/-- `POINTS_WIN` from `src/constants.py`. -/
def POINTS_WIN : ℕ := 3

/-- `POINTS_DRAW` from `src/constants.py`. -/
def POINTS_DRAW : ℕ := 1

/-- `POINTS_LOSS` from `src/constants.py`. -/
def POINTS_LOSS : ℕ := 0

/-- Round-half-to-even to an integer: Python `round(x)` on exact rationals. -/
def rhe (x : ℚ) : ℤ :=
  if x - ⌊x⌋ < 1 / 2 then ⌊x⌋
  else if 1 / 2 < x - ⌊x⌋ then ⌊x⌋ + 1
  else if ⌊x⌋ % 2 = 0 then ⌊x⌋ else ⌊x⌋ + 1

/-- Python `round(x, n)` modelled exactly on `ℚ`. -/
def pyRound (x : ℚ) (n : ℕ) : ℚ := (rhe (x * 10 ^ n) : ℚ) / 10 ^ n

theorem rhe_sub_le (x : ℚ) : (rhe x : ℚ) - x ≤ 1 / 2 := by
  have h0 : ((⌊x⌋ : ℤ) : ℚ) ≤ x := Int.floor_le x
  have h1 : x < (⌊x⌋ : ℤ) + 1 := Int.lt_floor_add_one x
  unfold rhe
  split_ifs <;> push_cast <;> linarith

theorem neg_le_rhe_sub (x : ℚ) : -(1 / 2) ≤ (rhe x : ℚ) - x := by
  have h0 : ((⌊x⌋ : ℤ) : ℚ) ≤ x := Int.floor_le x
  have h1 : x < (⌊x⌋ : ℤ) + 1 := Int.lt_floor_add_one x
  unfold rhe
  split_ifs <;> push_cast <;> linarith

theorem rhe_nonneg {x : ℚ} (hx : 0 ≤ x) : (0 : ℚ) ≤ (rhe x : ℚ) := by
  have h0 : (0 : ℚ) ≤ (⌊x⌋ : ℤ) := by exact_mod_cast Int.floor_nonneg.mpr hx
  unfold rhe
  split_ifs <;> push_cast at h0 ⊢ <;> linarith

/-- One-decimal Python rounding moves a value by at most `1/20`. -/
theorem pyRound_one_sub_le (x : ℚ) : pyRound x 1 - x ≤ 1 / 20 := by
  have h := rhe_sub_le (x * 10 ^ 1)
  unfold pyRound
  rw [div_sub' _ _ _ (by norm_num : (10 : ℚ) ^ 1 ≠ 0)]
  rw [div_le_iff₀ (by norm_num : (0 : ℚ) < 10 ^ 1)]
  norm_num at h ⊢
  linarith

/-- One-decimal Python rounding moves a value by at most `1/20`. -/
theorem neg_le_pyRound_one_sub (x : ℚ) : -(1 / 20) ≤ pyRound x 1 - x := by
  have h := neg_le_rhe_sub (x * 10 ^ 1)
  unfold pyRound
  rw [div_sub' _ _ _ (by norm_num : (10 : ℚ) ^ 1 ≠ 0)]
  rw [le_div_iff₀ (by norm_num : (0 : ℚ) < 10 ^ 1)]
  norm_num at h ⊢
  linarith

theorem pyRound_nonneg {x : ℚ} (hx : 0 ≤ x) (n : ℕ) : 0 ≤ pyRound x n := by
  unfold pyRound
  apply div_nonneg _ (by positivity)
  exact rhe_nonneg (by positivity)

/-- Result letter for the home side, from the stored `FTR` field
(`'W' if x == RESULT_HOME_WIN else ('D' if x == RESULT_DRAW else 'L')`). -/
def homeLetter (ftr : String) : Char :=
  if ftr = RESULT_HOME_WIN then 'W' else if ftr = RESULT_DRAW then 'D' else 'L'

/-- Result letter for the away side, from the stored `FTR` field
(`'W' if x == RESULT_AWAY_WIN else ('D' if x == RESULT_DRAW else 'L')`). -/
def awayLetter (ftr : String) : Char :=
  if ftr = RESULT_AWAY_WIN then 'W' else if ftr = RESULT_DRAW then 'D' else 'L'

/-- The `(Date, TeamResult)` rows built by `calculate_form_for_team`:
home appearances then away appearances, in dataset order (this is the
concatenated frame before the date sort). -/
def teamResultRows (df : List MatchRow) (team : String) : List (ℕ × Char) :=
  (df.filter (fun m => m.homeTeam == team)).map (fun m => (m.date, homeLetter m.ftr))
    ++ (df.filter (fun m => m.awayTeam == team)).map (fun m => (m.date, awayLetter m.ftr))

/-- The comparison used by `sort_values(COL_DATE, ascending=False)`:
most recent date first. -/
def dateDesc (a b : ℕ × Char) : Prop := b.1 ≤ a.1

instance : DecidableRel dateDesc := fun a b => inferInstanceAs (Decidable (b.1 ≤ a.1))

instance : IsTotal (ℕ × Char) dateDesc := ⟨fun a b => Nat.le_total b.1 a.1⟩

instance : IsTrans (ℕ × Char) dateDesc := ⟨fun _ _ _ h1 h2 => Nat.le_trans h2 h1⟩

/-- `calculate_form_for_team` (src/features.py:121-154): all matches of the
team, result letter from the team's perspective, sorted by date descending,
first `num_matches` results joined into a string (modelled as `List Char`). -/
def calculate_form_for_team (df : List MatchRow) (team : String)
    (num_matches : ℕ := 5) : List Char :=
  ((((teamResultRows df team).insertionSort dateDesc).take num_matches).map Prod.snd)

/-- The per-letter points used by `calculate_momentum_score`
(`POINTS_WIN if result == 'W' else (POINTS_DRAW if result == 'D' else POINTS_LOSS)`). -/
def pointsOfLetter (c : Char) : ℕ :=
  if c = 'W' then POINTS_WIN else if c = 'D' then POINTS_DRAW else POINTS_LOSS

/-- The fixed weight list `[1.5, 1.3, 1.1, 1.0, 0.8]` of `calculate_momentum_score`. -/
def momentumWeights : List ℚ := [3 / 2, 13 / 10, 11 / 10, 1, 4 / 5]

/-- The loop of `calculate_momentum_score`: `score += points * weights[i]`
over the form letters, with `weights = [1.5, 1.3, 1.1, 1.0, 0.8][:len(form)]`. -/
def weightedFormScore (form : List Char) : ℚ :=
  ((form.zip (momentumWeights.take form.length)).map
    (fun p => (pointsOfLetter p.1 : ℚ) * p.2)).sum

/-- `calculate_momentum_score` (src/features.py:157-185).  Returns `none`
exactly when the Python loop would raise `IndexError`, i.e. when the form
string is longer than the 5-element weight list (only reachable with
`num_matches > 5`); every caller in the repository uses `num_matches ≤ 5`. -/
def calculate_momentum_score (df : List MatchRow) (team : String)
    (num_matches : ℕ := 5) : Option ℚ :=
  let form := calculate_form_for_team df team num_matches
  if form = [] then some 0
  else if form.length ≤ momentumWeights.length then
    some (pyRound (weightedFormScore form) 2)
  else none

/-- The dictionary returned by `get_head_to_head_stats`. -/
structure H2HStats where
  total_matches : ℕ
  team_a_wins : ℕ
  team_b_wins : ℕ
  draws : ℕ
  team_a_goals : ℕ
  team_b_goals : ℕ
  matchRows : List MatchRow  -- the 'matches' key of the returned dict
deriving DecidableEq, Repr

/-- The filter of `get_head_to_head_stats`: matches between the two teams
in either orientation. -/
def h2hFilter (df : List MatchRow) (team_a team_b : String) : List MatchRow :=
  df.filter (fun m =>
    (m.homeTeam == team_a && m.awayTeam == team_b)
      || (m.homeTeam == team_b && m.awayTeam == team_a))

/-- Accumulator of the `for _, match in h2h_matches.iterrows()` loop. -/
structure H2HAcc where
  aw : ℕ
  bw : ℕ
  dr : ℕ
  ag : ℕ
  bg : ℕ
deriving DecidableEq

/-- One iteration of the `get_head_to_head_stats` loop. -/
def h2hStep (team_a : String) (acc : H2HAcc) (m : MatchRow) : H2HAcc :=
  let isAHome := m.homeTeam == team_a
  let acc1 :=
    if m.ftr == RESULT_HOME_WIN then
      if isAHome then { acc with aw := acc.aw + 1 } else { acc with bw := acc.bw + 1 }
    else if m.ftr == RESULT_AWAY_WIN then
      if isAHome then { acc with bw := acc.bw + 1 } else { acc with aw := acc.aw + 1 }
    else { acc with dr := acc.dr + 1 }
  if isAHome then { acc1 with ag := acc1.ag + m.fthg, bg := acc1.bg + m.ftag }
  else { acc1 with ag := acc1.ag + m.ftag, bg := acc1.bg + m.fthg }

/-- `get_head_to_head_stats` (src/features.py:188-255). -/
def get_head_to_head_stats (df : List MatchRow) (team_a team_b : String) : H2HStats :=
  let h2h := h2hFilter df team_a team_b
  if h2h = [] then
    { total_matches := 0, team_a_wins := 0, team_b_wins := 0, draws := 0,
      team_a_goals := 0, team_b_goals := 0, matchRows := h2h }
  else
    let acc := h2h.foldl (h2hStep team_a) ⟨0, 0, 0, 0, 0⟩
    { total_matches := h2h.length, team_a_wins := acc.aw, team_b_wins := acc.bw,
      draws := acc.dr, team_a_goals := acc.ag, team_b_goals := acc.bg, matchRows := h2h }

/-- The dictionary returned by `get_team_stats`.  The Python function
returns dictionaries with three different key sets: `Option` fields model
the keys that are absent from some of them (`none` = key absent, so that a
later dictionary lookup of that key raises `KeyError`). -/
structure TeamStats where
  matches_played : ℕ
  wins : ℕ
  draws : ℕ
  losses : ℕ
  goals_for : ℕ
  goals_against : ℕ
  goal_difference : ℤ
  points : ℕ
  win_rate : ℚ
  clean_sheets : ℕ
  avg_goals_for : Option ℚ
  avg_goals_against : Option ℚ
  avg_shots : Option ℚ
  shot_accuracy : Option ℚ
  avg_fouls : Option ℚ
  avg_corners : Option ℚ
  total_yellows : Option ℕ
  total_reds : Option ℕ
  total_shots : Option ℕ
  shots_on_target : Option ℕ
  total_fouls : Option ℕ
  total_corners : Option ℕ
deriving DecidableEq, Repr

/-- The `venue == 'home'` / `venue == 'away'` branches of `get_team_stats`
(src/features.py:270-289 and 348-408).  The zero-match early return
(lines 350-362) yields the short ten-key dictionary: its `Option` fields
are `none`. -/
def venueStats (df : List MatchRow) (team : String) (isHome : Bool) : TeamStats :=
  let ms := if isHome then df.filter (fun m => m.homeTeam == team)
            else df.filter (fun m => m.awayTeam == team)
  if ms = [] then
    { matches_played := 0, wins := 0, draws := 0, losses := 0, goals_for := 0,
      goals_against := 0, goal_difference := 0, points := 0, win_rate := 0,
      clean_sheets := 0, avg_goals_for := none, avg_goals_against := none,
      avg_shots := none, shot_accuracy := none, avg_fouls := none,
      avg_corners := none, total_yellows := none, total_reds := none,
      total_shots := none, shots_on_target := none, total_fouls := none,
      total_corners := none }
  else
    let n : ℕ := ms.length
    let wins : ℕ := if isHome then (ms.filter (fun m => m.ftr == RESULT_HOME_WIN)).length
                else (ms.filter (fun m => m.ftr == RESULT_AWAY_WIN)).length
    let draws : ℕ := (ms.filter (fun m => m.ftr == RESULT_DRAW)).length
    let losses : ℕ := if isHome then (ms.filter (fun m => m.ftr == RESULT_AWAY_WIN)).length
                  else (ms.filter (fun m => m.ftr == RESULT_HOME_WIN)).length
    let gfs : ℕ := if isHome then (ms.map (·.fthg)).sum else (ms.map (·.ftag)).sum
    let gas : ℕ := if isHome then (ms.map (·.ftag)).sum else (ms.map (·.fthg)).sum
    let cs : ℕ := if isHome then (ms.filter (fun m => m.ftag == 0)).length
              else (ms.filter (fun m => m.fthg == 0)).length
    let ts : ℕ := if isHome then (ms.map (·.hshots)).sum else (ms.map (·.ashots)).sum
    let st : ℕ := if isHome then (ms.map (·.hst)).sum else (ms.map (·.ast)).sum
    let tf : ℕ := if isHome then (ms.map (·.hf)).sum else (ms.map (·.af)).sum
    let tc : ℕ := if isHome then (ms.map (·.hc)).sum else (ms.map (·.ac)).sum
    let ty : ℕ := if isHome then (ms.map (·.hy)).sum else (ms.map (·.ay)).sum
    let tr : ℕ := if isHome then (ms.map (·.hred)).sum else (ms.map (·.ared)).sum
    { matches_played := n, wins := wins, draws := draws, losses := losses,
      goals_for := gfs, goals_against := gas,
      goal_difference := (gfs : ℤ) - (gas : ℤ),
      points := wins * POINTS_WIN + draws * POINTS_DRAW,
      win_rate := pyRound ((wins : ℚ) / n * 100) 1,
      clean_sheets := cs,
      avg_goals_for := some (pyRound ((gfs : ℚ) / n) 2),
      avg_goals_against := some (pyRound ((gas : ℚ) / n) 2),
      avg_shots := some (pyRound ((ts : ℚ) / n) 2),
      shot_accuracy := some (if 0 < ts then pyRound ((st : ℚ) / (ts : ℚ) * 100) 1 else 0),
      avg_fouls := some (pyRound ((tf : ℚ) / n) 2),
      avg_corners := some (pyRound ((tc : ℚ) / n) 2),
      total_yellows := some ty, total_reds := some tr,
      total_shots := some ts, shots_on_target := some st,
      total_fouls := some tf, total_corners := some tc }

/-- The `venue=all` branch of `get_team_stats` (src/features.py:290-346):
recursively obtain home and away stats and recombine.  Every `←` is a
dictionary lookup in the recursive results; `none` models the `KeyError`
raised when the looked-up key is absent (which happens exactly when that
venue had zero matches, since the zero-match venue dictionary lacks the
`total_*`/`shots_on_target` keys). -/
def combinedStats (df : List MatchRow) (team : String) : Option TeamStats :=
  let home := df.filter (fun m => m.homeTeam == team)
  let away := df.filter (fun m => m.awayTeam == team)
  let hs := venueStats df team true
  let aws := venueStats df team false
  let total := home.length + away.length
  if total = 0 then
    some { matches_played := 0, wins := 0, draws := 0, losses := 0, goals_for := 0,
           goals_against := 0, goal_difference := 0, points := 0, win_rate := 0,
           clean_sheets := 0, avg_goals_for := some 0, avg_goals_against := some 0,
           avg_shots := some 0, shot_accuracy := some 0, avg_fouls := some 0,
           avg_corners := some 0, total_yellows := some 0, total_reds := some 0,
           total_shots := none, shots_on_target := none, total_fouls := none,
           total_corners := none }
  else do
    let hts ← hs.total_shots
    let ats ← aws.total_shots
    let hsot ← hs.shots_on_target
    let asot ← aws.shots_on_target
    let htf ← hs.total_fouls
    let atf ← aws.total_fouls
    let htc ← hs.total_corners
    let atc ← aws.total_corners
    let hty ← hs.total_yellows
    let aty ← aws.total_yellows
    let htr ← hs.total_reds
    let atr ← aws.total_reds
    some { matches_played := total,
           wins := hs.wins + aws.wins,
           draws := hs.draws + aws.draws,
           losses := hs.losses + aws.losses,
           goals_for := hs.goals_for + aws.goals_for,
           goals_against := hs.goals_against + aws.goals_against,
           goal_difference := hs.goal_difference + aws.goal_difference,
           points := hs.points + aws.points,
           win_rate := pyRound (((hs.wins + aws.wins : ℕ) : ℚ) / total * 100) 1,
           clean_sheets := hs.clean_sheets + aws.clean_sheets,
           avg_goals_for := some (pyRound (((hs.goals_for + aws.goals_for : ℕ) : ℚ) / total) 2),
           avg_goals_against :=
             some (pyRound (((hs.goals_against + aws.goals_against : ℕ) : ℚ) / total) 2),
           avg_shots := some (pyRound (((hts + ats : ℕ) : ℚ) / total) 2),
           shot_accuracy := some (if 0 < hts + ats then
             pyRound (((hsot + asot : ℕ) : ℚ) / ((hts + ats : ℕ) : ℚ) * 100) 1 else 0),
           avg_fouls := some (pyRound (((htf + atf : ℕ) : ℚ) / total) 2),
           avg_corners := some (pyRound (((htc + atc : ℕ) : ℚ) / total) 2),
           total_yellows := some (hty + aty), total_reds := some (htr + atr),
           total_shots := some (hts + ats), shots_on_target := some (hsot + asot),
           total_fouls := some (htf + atf), total_corners := some (htc + atc) }

/-- `get_team_stats` (src/features.py:258-408).  The Python `venue`
argument is `Optional[str]`: `'home'` and `'away'` select the venue
branches, anything else (in particular `None`) the combined branch. -/
def get_team_stats (df : List MatchRow) (team : String)
    (venue : Option String := none) : Option TeamStats :=
  if venue = some "home" then some (venueStats df team true)
  else if venue = some "away" then some (venueStats df team false)
  else combinedStats df team

/-- One row of the standings DataFrame built by `calculate_standings`. -/
structure StandingsRow where
  pos : ℕ
  team : String
  p : ℕ
  w : ℕ
  d : ℕ
  l : ℕ
  gf : ℕ
  ga : ℕ
  gd : ℤ
  pts : ℕ
  form : List Char
deriving DecidableEq, Repr

/-- Code-point lexicographic comparison of character lists: the order
Python `sorted` uses on strings, written out so that it evaluates by
kernel reduction. -/
def charListLeb : List Char → List Char → Bool
  | [], _ => true
  | _ :: _, [] => false
  | a :: as2, b :: bs =>
      if a.toNat < b.toNat then true
      else if b.toNat < a.toNat then false
      else charListLeb as2 bs

/-- Python string comparison `a <= b` on the underlying character lists. -/
def pyStrLe (a b : String) : Prop := charListLeb a.data b.data = true

instance : DecidableRel pyStrLe := fun a b =>
  inferInstanceAs (Decidable (charListLeb a.data b.data = true))

/-- `sorted(set(home_teams) | set(away_teams))` of `calculate_standings`:
the deduplicated team names, sorted ascending.  No claim depends on this
iteration order (it only seeds the stable standings sort); the proofs use
only that it is a permutation of the deduplicated names. -/
def allTeams (df : List MatchRow) : List String :=
  ((df.map (·.homeTeam) ++ df.map (·.awayTeam)).dedup).insertionSort pyStrLe

/-- The per-team body of the `for team in all_teams` loop of
`calculate_standings` (src/features.py:60-105); `pos` is filled in later,
after the sort. -/
def rowFor (df : List MatchRow) (team : String) : StandingsRow :=
  let home := df.filter (fun m => m.homeTeam == team)
  let away := df.filter (fun m => m.awayTeam == team)
  let homeWins := (home.filter (fun m => m.ftr == RESULT_HOME_WIN)).length
  let homeDraws := (home.filter (fun m => m.ftr == RESULT_DRAW)).length
  let homeLosses := (home.filter (fun m => m.ftr == RESULT_AWAY_WIN)).length
  let awayWins := (away.filter (fun m => m.ftr == RESULT_AWAY_WIN)).length
  let awayDraws := (away.filter (fun m => m.ftr == RESULT_DRAW)).length
  let awayLosses := (away.filter (fun m => m.ftr == RESULT_HOME_WIN)).length
  let gfs := (home.map (·.fthg)).sum + (away.map (·.ftag)).sum
  let gas := (home.map (·.ftag)).sum + (away.map (·.fthg)).sum
  { pos := 0, team := team, p := home.length + away.length,
    w := homeWins + awayWins, d := homeDraws + awayDraws,
    l := homeLosses + awayLosses, gf := gfs, ga := gas,
    gd := (gfs : ℤ) - (gas : ℤ),
    pts := (homeWins + awayWins) * POINTS_WIN + (homeDraws + awayDraws) * POINTS_DRAW,
    form := calculate_form_for_team df team 5 }

/-- The comparison of `sort_values(by=['Pts', 'GD', 'GF'],
ascending=[False, False, False])`: descending lexicographic order on
(points, goal difference, goals for). -/
def standingsGE (a b : StandingsRow) : Prop :=
  b.pts < a.pts ∨ (b.pts = a.pts ∧ (b.gd < a.gd ∨ (b.gd = a.gd ∧ b.gf ≤ a.gf)))

instance : DecidableRel standingsGE := fun a b =>
  inferInstanceAs (Decidable (b.pts < a.pts ∨ (b.pts = a.pts ∧ (b.gd < a.gd ∨ (b.gd = a.gd ∧ b.gf ≤ a.gf)))))

instance : IsTotal StandingsRow standingsGE :=
  ⟨by intro a b; unfold standingsGE; omega⟩

instance : IsTrans StandingsRow standingsGE :=
  ⟨by intro a b c hab hbc; unfold standingsGE at hab hbc ⊢; omega⟩

/-- The unsorted standings rows, one per team, in `all_teams` order. -/
def standingsBase (df : List MatchRow) : List StandingsRow :=
  (allTeams df).map (rowFor df)

/-- The rows after the descending (Pts, GD, GF) sort. -/
def standingsSorted (df : List MatchRow) : List StandingsRow :=
  (standingsBase df).insertionSort standingsGE

/-- The final standings rows: 1-based positions inserted after the sort
(`standings_df.insert(0, 'Pos', range(1, len + 1))`). -/
def standingsRows (df : List MatchRow) : List StandingsRow :=
  (standingsSorted df).enum.map (fun q => { q.2 with pos := q.1 + 1 })

/-- `calculate_standings` (src/features.py:43-118).  On an empty match set
the Python function raises `KeyError` — for a column-less empty frame at
`df[COL_HOME_TEAM]`, and otherwise at `sort_values(by=['Pts', 'GD', 'GF'])`,
because `pd.DataFrame([])` built from the empty `standings_data` list has
no `'Pts'` column.  That raise is modelled by `none`, which occurs exactly
when the match list is empty (the row list is empty iff the match list is). -/
def calculate_standings (df : List MatchRow) : Option (List StandingsRow) :=
  if df = [] then none else some (standingsRows df)

/-- The dictionary returned by `calculate_win_probability`. -/
structure WinProbability where
  home_win : ℚ
  draw : ℚ
  away_win : ℚ
  confidence : String
deriving DecidableEq, Repr

/-- The position lookup of `calculate_win_probability`
(`standings[standings['Team'] == team]['Pos'].values[0] if len(...) > 0 else 10`). -/
def posOf (standings : List StandingsRow) (team : String) : ℕ :=
  match standings.filter (fun r => r.team == team) with
  | [] => 10
  | r :: _ => r.pos

/-- The standings signal `1 / (1 + pos * 0.1)` of `calculate_win_probability`
(src/features.py:470-471). -/
def standingSignal (pos : ℕ) : ℚ := 1 / (1 + (pos : ℚ) * (1 / 10))

/-- The momentum shares (40% signal) of `calculate_win_probability`:
each momentum divided by the total, `0.5` each when the total is zero. -/
def momentumShares (momA momB : ℚ) : ℚ × ℚ :=
  if 0 < momA + momB then (momA / (momA + momB), momB / (momA + momB))
  else (1 / 2, 1 / 2)

/-- The head-to-head shares (30% signal) of `calculate_win_probability`:
`(wins + draws * 0.5) / total`, `0.5` each when there is no H2H history. -/
def h2hShares (h2h : H2HStats) : ℚ × ℚ :=
  if 0 < h2h.total_matches then
    (((h2h.team_a_wins : ℚ) + (h2h.draws : ℚ) * (1 / 2)) / (h2h.total_matches : ℚ),
     ((h2h.team_b_wins : ℚ) + (h2h.draws : ℚ) * (1 / 2)) / (h2h.total_matches : ℚ))
  else (1 / 2, 1 / 2)

/-- The home-advantage shares (15% signal) of `calculate_win_probability`. -/
def homeAdvShares (team_a team_b home_team : String) : ℚ × ℚ :=
  if home_team = team_a then (3 / 5, 2 / 5)
  else if home_team = team_b then (2 / 5, 3 / 5)
  else (1 / 2, 1 / 2)

/-- The weighted blend `0.40 * momentum + 0.30 * h2h + 0.15 * home_adv +
0.15 * standings` of `calculate_win_probability` (src/features.py:474-485). -/
def blendSignals (mom h2h adv stand : ℚ) : ℚ :=
  mom * (2 / 5) + h2h * (3 / 10) + adv * (3 / 20) + stand * (3 / 20)

/-- The confidence label of `calculate_win_probability`. -/
def confidenceLabel (n : ℕ) : String :=
  if 3 ≤ n then "High" else if 1 ≤ n then "Medium" else "Low"

/-- The body of `calculate_win_probability` after the standings and the two
momentum scores have been obtained (src/features.py:442-514).  The final
normalisation `prob_a / total` never divides by zero when the momenta are
the (non-negative) values produced by `calculate_momentum_score`: the
home-advantage and standings components make both blended values positive,
which the claim theorems below prove. -/
def winProbFromParts (team_a team_b home_team : String) (posA posB : ℕ)
    (momA momB : ℚ) (h2h : H2HStats) : WinProbability :=
  let mo := momentumShares momA momB
  let hh := h2hShares h2h
  let ad := homeAdvShares team_a team_b home_team
  let probA := blendSignals mo.1 hh.1 ad.1 (standingSignal posA)
  let probB := blendSignals mo.2 hh.2 ad.2 (standingSignal posB)
  let total := probA + probB
  let pA := probA / total
  let pB := probB / total
  let drawProb : ℚ := 1 / 4
  let pA2 := pA * (1 - drawProb)
  let pB2 := pB * (1 - drawProb)
  let hw := if home_team = team_a then pA2 else if home_team = team_b then pB2 else pA2
  let aw := if home_team = team_a then pB2 else if home_team = team_b then pA2 else pB2
  { home_win := pyRound (hw * 100) 1,
    draw := pyRound (drawProb * 100) 1,
    away_win := pyRound (aw * 100) 1,
    confidence := confidenceLabel h2h.total_matches }

/-- `calculate_win_probability` (src/features.py:411-514).  The function
first computes the standings (which raises on an empty match set, hence the
`Option` bind) and the two momentum scores, then blends the four signals. -/
def calculate_win_probability (df : List MatchRow) (team_a team_b home_team : String) :
    Option WinProbability := do
  let standings ← calculate_standings df
  let momA ← calculate_momentum_score df team_a 5
  let momB ← calculate_momentum_score df team_b 5
  some (winProbFromParts team_a team_b home_team
    (posOf standings team_a) (posOf standings team_b) momA momB
    (get_head_to_head_stats df team_a team_b))

/-- A concrete one-match dataset: Arsenal 2-1 Chelsea at home (a home win),
with the auxiliary statistic columns filled in. -/
def oneMatchDf : List MatchRow :=
  [{ date := 1, homeTeam := "Arsenal", awayTeam := "Chelsea",
     fthg := 2, ftag := 1, ftr := "H",
     hshots := 15, ashots := 10, hst := 6, ast := 3, hf := 10, af := 9,
     hc := 5, ac := 3, hy := 1, ay := 2, hred := 0, ared := 0 }]

/-- The points of one team as four match counts over the whole dataset
(the nested venue filters of `rowFor` flattened); used to reason about the
total points awarded across the standings. -/
def teamPts (df : List MatchRow) (t : String) : ℕ :=
  3 * df.countP (fun m => m.ftr == "H" && m.homeTeam == t)
    + 3 * df.countP (fun m => m.ftr == "A" && m.awayTeam == t)
    + df.countP (fun m => m.ftr == "D" && m.homeTeam == t)
    + df.countP (fun m => m.ftr == "D" && m.awayTeam == t)

/-- The points one single match contributes to team `t` in the standings. -/
def pointsFromMatch (m : MatchRow) (t : String) : ℕ :=
  (if m.ftr = "H" ∧ m.homeTeam = t then 3 else 0)
    + (if m.ftr = "A" ∧ m.awayTeam = t then 3 else 0)
    + (if m.ftr = "D" ∧ m.homeTeam = t then 1 else 0)
    + (if m.ftr = "D" ∧ m.awayTeam = t then 1 else 0)

/-! ### Helper lemmas -/

theorem pyRound_zero (n : ℕ) : pyRound 0 n = 0 := by
  norm_num [pyRound, rhe]

theorem form_length_le (df : List MatchRow) (team : String) (n : ℕ) :
    (calculate_form_for_team df team n).length ≤ n := by
  simp only [calculate_form_for_team, List.length_map, List.length_take]
  exact min_le_left _ _

theorem mom_eq (df : List MatchRow) (team : String) (n : ℕ)
    (hn : n ≤ momentumWeights.length) :
    calculate_momentum_score df team n =
      some (pyRound (weightedFormScore (calculate_form_for_team df team n)) 2) := by
  unfold calculate_momentum_score
  by_cases hf : calculate_form_for_team df team n = []
  · simp [hf, weightedFormScore, pyRound_zero]
  · have hlen : (calculate_form_for_team df team n).length ≤ momentumWeights.length :=
      le_trans (form_length_le df team n) hn
    simp [hf, hlen]

theorem momentumWeights_nonneg : ∀ w ∈ momentumWeights, (0 : ℚ) ≤ w := by
  intro w hw
  simp only [momentumWeights, List.mem_cons, List.not_mem_nil, or_false] at hw
  rcases hw with h | h | h | h | h <;> rw [h] <;> norm_num

theorem weightedFormScore_nonneg (form : List Char) : 0 ≤ weightedFormScore form := by
  unfold weightedFormScore
  apply List.sum_nonneg
  intro x hx
  obtain ⟨p, hp, rfl⟩ := List.mem_map.mp hx
  have hw : p.2 ∈ momentumWeights := List.mem_of_mem_take (List.of_mem_zip hp).2
  have hw0 : (0 : ℚ) ≤ p.2 := momentumWeights_nonneg p.2 hw
  positivity

theorem mom_nonneg {df : List MatchRow} {team : String} {n : ℕ} {q : ℚ}
    (h : calculate_momentum_score df team n = some q) : 0 ≤ q := by
  simp only [calculate_momentum_score] at h
  split_ifs at h with h1 h2
  · exact le_of_eq (Option.some_injective _ h)
  · have hq : pyRound (weightedFormScore (calculate_form_for_team df team n)) 2 = q :=
      Option.some_injective _ h
    rw [← hq]
    exact pyRound_nonneg (weightedFormScore_nonneg _) 2

theorem standings_eq_some {df : List MatchRow} (h : df ≠ []) :
    calculate_standings df = some (standingsRows df) := by
  simp [calculate_standings, h]

theorem winprob_eq (df : List MatchRow) (a b home : String) (h : df ≠ []) :
    calculate_win_probability df a b home =
      some (winProbFromParts a b home
        (posOf (standingsRows df) a) (posOf (standingsRows df) b)
        (pyRound (weightedFormScore (calculate_form_for_team df a 5)) 2)
        (pyRound (weightedFormScore (calculate_form_for_team df b 5)) 2)
        (get_head_to_head_stats df a b)) := by
  rw [calculate_win_probability, standings_eq_some h,
    mom_eq df a 5 (by decide), mom_eq df b 5 (by decide)]
  rfl

theorem winprob_some (df : List MatchRow) (a b home : String) (h : df ≠ []) :
    ∃ r, calculate_win_probability df a b home = some r :=
  ⟨_, winprob_eq df a b home h⟩

/-! ### Claim theorems -/

/-- C1: the claim says that for the empty match set `calculate_standings`
returns an empty standings table with no error.  The code instead raises
`KeyError` on an empty frame (at the `df[COL_HOME_TEAM]` column access for
a column-less frame, and otherwise at `sort_values(by=['Pts', 'GD', 'GF'])`
since the empty standings frame has no `'Pts'` column): in the embedding
the raise is `none`. -/
theorem standings_empty_raises : calculate_standings ([] : List MatchRow) = none := by
  decide

/-- C2: the claim says the venue='all' result of `get_team_stats` is the
field-wise recombination of the home and away results, in particular when
the team has zero matches at one of the two venues, and never raises.  On
`oneMatchDf` the team Arsenal has one home match and no away match; the
zero-match away dictionary lacks the `total_shots`/`shots_on_target`/
`total_fouls`/`total_corners`/`total_yellows`/`total_reds` keys that the
combined branch looks up, so the call raises `KeyError` (= `none` here). -/
theorem team_stats_all_raises_on_single_venue :
    get_team_stats oneMatchDf "Arsenal" none = none := by
  decide

/-- C3 counterexample: the claim says the standings signal of
`calculate_win_probability` is `1/(1 + pos * 0.1)` normalized against the
other team's value so that the two shares sum to 1 before the blend.  On
`oneMatchDf` the two teams occupy positions 1 and 2, and the two signal
values the code feeds into the blend sum to `115/66 ≠ 1`: the code never
normalizes this signal (only the final blended pair is normalized). -/
theorem standings_shares_not_normalized :
    posOf (standingsRows oneMatchDf) "Arsenal" = 1 ∧
    posOf (standingsRows oneMatchDf) "Chelsea" = 2 ∧
    standingSignal 1 + standingSignal 2 ≠ 1 :=
  ⟨by decide, by decide, by norm_num [standingSignal]⟩

/-- C3 (amended): the standings signal for a team at position `pos` is
`1/(1 + pos * 0.1)`, entering the 0.40/0.30/0.15/0.15 blend un-normalized
(only the final blended pair is normalized), and a lower position number
yields a strictly higher signal. -/
theorem standingSignal_spec :
    (∀ pos : ℕ, standingSignal pos = 1 / (1 + (pos : ℚ) / 10)) ∧
    (∀ mom h2h adv : ℚ, ∀ pos : ℕ,
      blendSignals mom h2h adv (standingSignal pos) =
        mom * (2 / 5) + h2h * (3 / 10) + adv * (3 / 20) +
          (1 / (1 + (pos : ℚ) / 10)) * (3 / 20)) ∧
    (∀ p q : ℕ, p < q → standingSignal q < standingSignal p) := by
  refine ⟨?_, ?_, ?_⟩
  · intro pos
    unfold standingSignal
    ring_nf
  · intro mom h2h adv pos
    unfold blendSignals standingSignal
    ring_nf
  · intro p q hpq
    unfold standingSignal
    have hp : (0 : ℚ) < 1 + (p : ℚ) * (1 / 10) := by positivity
    have hcast : (p : ℚ) < (q : ℚ) := by exact_mod_cast hpq
    apply one_div_lt_one_div_of_lt hp
    linarith

/-- C3 amended witness: the monotonicity at concrete positions 1 and 2. -/
theorem standingSignal_spec_witness : standingSignal 2 < standingSignal 1 :=
  standingSignal_spec.2.2 1 2 (by norm_num)

/-- C4 counterexample: the claim says `get_head_to_head_stats` and
`calculate_win_probability` called with `team_a = team_b` fail loudly with
an explicit error.  On `oneMatchDf` with both teams set to Arsenal neither
raises: head-to-head silently returns the all-zero record and the win
probability returns a complete result. -/
theorem self_pair_silent :
    get_head_to_head_stats oneMatchDf "Arsenal" "Arsenal" =
      { total_matches := 0, team_a_wins := 0, team_b_wins := 0, draws := 0,
        team_a_goals := 0, team_b_goals := 0, matchRows := [] } ∧
    ∃ r, calculate_win_probability oneMatchDf "Arsenal" "Arsenal" "Arsenal" = some r :=
  ⟨by decide, winprob_some oneMatchDf "Arsenal" "Arsenal" "Arsenal" (by decide)⟩

/-- C4 (amended): called with `team_a = team_b`, neither function raises:
`get_head_to_head_stats` returns the all-zero record whenever the dataset
has no row in which the same team occupies both slots, and
`calculate_win_probability` on a non-empty match set returns a complete
result. -/
theorem self_pair_returns (df : List MatchRow) (t home : String)
    (hself : ∀ m ∈ df, ¬(m.homeTeam = t ∧ m.awayTeam = t)) :
    get_head_to_head_stats df t t =
      { total_matches := 0, team_a_wins := 0, team_b_wins := 0, draws := 0,
        team_a_goals := 0, team_b_goals := 0, matchRows := [] } ∧
    (df ≠ [] → ∃ r, calculate_win_probability df t t home = some r) := by
  constructor
  · have hfil : h2hFilter df t t = [] := by
      rw [h2hFilter, List.filter_eq_nil_iff]
      intro m hm
      simpa using hself m hm
    rw [get_head_to_head_stats, hfil]
    simp
  · intro hne
    exact winprob_some df t t home hne

/-- C4 amended witness: the amended statement instantiated on the concrete
one-match dataset. -/
theorem self_pair_returns_witness :
    get_head_to_head_stats oneMatchDf "Chelsea" "Chelsea" =
      { total_matches := 0, team_a_wins := 0, team_b_wins := 0, draws := 0,
        team_a_goals := 0, team_b_goals := 0, matchRows := [] } ∧
    (oneMatchDf ≠ [] → ∃ r, calculate_win_probability oneMatchDf "Chelsea" "Chelsea" "Arsenal" = some r) :=
  self_pair_returns oneMatchDf "Chelsea" "Arsenal" (by decide)

theorem homeLetter_cases (s : String) :
    homeLetter s = 'W' ∨ homeLetter s = 'D' ∨ homeLetter s = 'L' := by
  unfold homeLetter
  split_ifs <;> simp

theorem awayLetter_cases (s : String) :
    awayLetter s = 'W' ∨ awayLetter s = 'D' ∨ awayLetter s = 'L' := by
  unfold awayLetter
  split_ifs <;> simp

/-- C8: `calculate_form_for_team` returns a sequence of length
`min n (matches played by the team)`, every character of which is one of
W/D/L, and which reads off the per-match results of a date-sorted
(most-recent-first) permutation of the team's match rows; a team with no
matches yields the empty sequence (the `min` with 0 matches). -/
theorem recent_form_spec (df : List MatchRow) (team : String) (n : ℕ) :
    (calculate_form_for_team df team n).length
        = min n ((df.filter (fun m => m.homeTeam == team)).length
                 + (df.filter (fun m => m.awayTeam == team)).length) ∧
    (∀ c ∈ calculate_form_for_team df team n, c = 'W' ∨ c = 'D' ∨ c = 'L') ∧
    ∃ ms : List (ℕ × Char), ms.Perm (teamResultRows df team) ∧
      ms.Pairwise (fun x y => y.1 ≤ x.1) ∧
      calculate_form_for_team df team n = (ms.take n).map Prod.snd := by
  refine ⟨?_, ?_, ?_⟩
  · simp [calculate_form_for_team, List.length_take, List.length_insertionSort,
      teamResultRows, List.length_append]
  · intro c hc
    simp only [calculate_form_for_team, List.mem_map] at hc
    obtain ⟨p, hp, rfl⟩ := hc
    have hp1 : p ∈ (teamResultRows df team).insertionSort dateDesc :=
      List.take_subset n _ hp
    have hp2 : p ∈ teamResultRows df team := (List.mem_insertionSort _).mp hp1
    simp only [teamResultRows, List.mem_append, List.mem_map] at hp2
    rcases hp2 with ⟨m, _, rfl⟩ | ⟨m, _, rfl⟩
    · exact homeLetter_cases m.ftr
    · exact awayLetter_cases m.ftr
  · refine ⟨(teamResultRows df team).insertionSort dateDesc,
      List.perm_insertionSort dateDesc _, ?_, rfl⟩
    exact List.sorted_insertionSort dateDesc (teamResultRows df team)

/-- C9: `calculate_momentum_score` (for the request sizes `n ≤ 5` used by the
code base) is the two-decimal rounding of the weighted sum of the recent form,
with weights `[1.5, 1.3, 1.1, 1.0, 0.8]` truncated to the form length and
points W=3, D=1, L=0; a team with no matches (in particular a team name absent
from the dataset) yields exactly 0.0 without raising; a team whose only match
is a 2-1 home win yields exactly 4.5. -/
theorem momentum_spec (df : List MatchRow) (team : String) (n : ℕ) (hn : n ≤ 5) :
    calculate_momentum_score df team n =
      some (pyRound (weightedFormScore (calculate_form_for_team df team n)) 2) ∧
    (momentumWeights = [3 / 2, 13 / 10, 11 / 10, 1, 4 / 5] ∧
      pointsOfLetter 'W' = 3 ∧ pointsOfLetter 'D' = 1 ∧ pointsOfLetter 'L' = 0) ∧
    (teamResultRows df team = [] → calculate_momentum_score df team n = some 0) ∧
    (calculate_form_for_team oneMatchDf "Arsenal" 5 = ['W'] ∧
      calculate_momentum_score oneMatchDf "Arsenal" 5 = some (9 / 2)) := by
  refine ⟨?_, ⟨rfl, by decide, by decide, by decide⟩, ?_, by decide, ?_⟩
  · exact mom_eq df team n (by rw [momentumWeights]; simpa using hn)
  · intro h0
    simp [calculate_momentum_score, calculate_form_for_team, h0, List.insertionSort]
  · norm_num [calculate_momentum_score, calculate_form_for_team, teamResultRows,
      oneMatchDf, homeLetter, awayLetter, RESULT_HOME_WIN, RESULT_DRAW, RESULT_AWAY_WIN,
      List.insertionSort, List.orderedInsert, weightedFormScore, momentumWeights,
      pointsOfLetter, pyRound, rhe, POINTS_WIN, POINTS_DRAW, POINTS_LOSS]

/-- C9 witness: the theorem applied at the concrete one-match dataset. -/
theorem momentum_spec_witness :
    calculate_momentum_score oneMatchDf "Arsenal" 5 = some (9 / 2) :=
  (momentum_spec oneMatchDf "Arsenal" 5 (by norm_num)).2.2.2.2

theorem mem_allTeams {df : List MatchRow} {x : String} (hx : x ∈ allTeams df) :
    ∃ m ∈ df, m.homeTeam = x ∨ m.awayTeam = x := by
  unfold allTeams at hx
  rw [List.mem_insertionSort, List.mem_dedup, List.mem_append] at hx
  rcases hx with hx | hx <;> obtain ⟨m, hm, rfl⟩ := List.mem_map.mp hx
  · exact ⟨m, hm, Or.inl rfl⟩
  · exact ⟨m, hm, Or.inr rfl⟩

theorem standingsRows_team_mem {df : List MatchRow} {r : StandingsRow}
    (hr : r ∈ standingsRows df) : r.team ∈ allTeams df := by
  unfold standingsRows at hr
  obtain ⟨p, hp, rfl⟩ := List.mem_map.mp hr
  have hp2 : p.2 ∈ standingsSorted df := by
    have hsnd := List.enum_map_snd (standingsSorted df)
    exact hsnd ▸ List.mem_map_of_mem Prod.snd hp
  have hbase : p.2 ∈ standingsBase df := (List.mem_insertionSort _).mp hp2
  obtain ⟨t, ht, hrow⟩ := List.mem_map.mp hbase
  have : p.2.team = t := by rw [← hrow, rowFor]
  simpa [this] using ht

/-- C10: with a non-empty match set and a pair of distinct teams of which
the second appears in no match, `calculate_win_probability` still returns a
complete probability result without raising, and the standings position it
substitutes for the absent team is the fixed default 10. -/
theorem absent_team_default_position (df : List MatchRow) (a b home : String)
    (hne : df ≠ []) (_hab : a ≠ b)
    (habsent : ∀ m ∈ df, m.homeTeam ≠ b ∧ m.awayTeam ≠ b) :
    posOf (standingsRows df) b = 10 ∧
    ∃ r, calculate_win_probability df a b home = some r := by
  constructor
  · have hfil : (standingsRows df).filter (fun r => r.team == b) = [] := by
      rw [List.filter_eq_nil_iff]
      intro r hr
      have hmem := standingsRows_team_mem hr
      obtain ⟨m, hm, hor⟩ := mem_allTeams hmem
      have := habsent m hm
      simp only [beq_iff_eq]
      rcases hor with h | h <;> rw [← h] <;> tauto
    rw [posOf, hfil]
  · exact winprob_some df a b home hne

/-- C10 witness: the theorem applied at the concrete one-match dataset with
the absent team name Zed. -/
theorem absent_team_default_position_witness :
    posOf (standingsRows oneMatchDf) "Zed" = 10 ∧
    ∃ r, calculate_win_probability oneMatchDf "Arsenal" "Zed" "Arsenal" = some r :=
  absent_team_default_position oneMatchDf "Arsenal" "Zed" "Arsenal"
    (by decide) (by decide) (by decide)

theorem sum_map_indicator {α : Type _} [DecidableEq α] {L : List α} {x : α}
    (hnd : L.Nodup) (hx : x ∈ L) (c : ℕ) :
    (L.map fun t => if x = t then c else 0).sum = c := by
  induction L with
  | nil => cases hx
  | cons a L ih =>
    rcases List.mem_cons.mp hx with rfl | hx2
    · have hnotin : x ∉ L := (List.nodup_cons.mp hnd).1
      have hz : (L.map fun t => if x = t then c else 0).sum = 0 := by
        apply List.sum_eq_zero
        intro y hy
        obtain ⟨t, ht, rfl⟩ := List.mem_map.mp hy
        have : x ≠ t := by rintro rfl; exact hnotin ht
        simp [this]
      simp [hz]
    · have hne : x ≠ a := by rintro rfl; exact (List.nodup_cons.mp hnd).1 hx2
      simp [hne, ih (List.nodup_cons.mp hnd).2 hx2]

theorem rowFor_pts (df : List MatchRow) (t : String) :
    (rowFor df t).pts = teamPts df t := by
  simp only [rowFor, teamPts, POINTS_WIN, POINTS_DRAW, List.filter_filter,
    List.countP_eq_length_filter, RESULT_HOME_WIN, RESULT_DRAW, RESULT_AWAY_WIN]
  ring

theorem teamPts_cons (m : MatchRow) (df : List MatchRow) (t : String) :
    teamPts (m :: df) t = teamPts df t + pointsFromMatch m t := by
  simp only [teamPts, pointsFromMatch, List.countP_cons, Bool.and_eq_true, beq_iff_eq]
  split_ifs <;> omega

theorem sum_pointsFromMatch {L : List String} (hnd : L.Nodup) (m : MatchRow)
    (hh : m.homeTeam ∈ L) (ha : m.awayTeam ∈ L) :
    (L.map (pointsFromMatch m)).sum =
      3 * (if m.ftr == "H" || m.ftr == "A" then 1 else 0)
        + 2 * (if m.ftr == "D" then 1 else 0) := by
  by_cases hH : m.ftr = "H"
  · have e1 : ¬((m.ftr) = "A") := by rw [hH]; decide
    have e2 : ¬((m.ftr) = "D") := by rw [hH]; decide
    have hmap : (L.map (pointsFromMatch m)).sum
        = (L.map fun t => if m.homeTeam = t then 3 else 0).sum := by
      apply congrArg
      apply List.map_congr_left
      intro t _
      simp [pointsFromMatch, hH, e1, e2]
    rw [hmap, sum_map_indicator hnd hh 3]
    simp [hH]
  · by_cases hA : m.ftr = "A"
    · have e2 : ¬((m.ftr) = "D") := by rw [hA]; decide
      have hmap : (L.map (pointsFromMatch m)).sum
          = (L.map fun t => if m.awayTeam = t then 3 else 0).sum := by
        apply congrArg
        apply List.map_congr_left
        intro t _
        simp [pointsFromMatch, hA, hH, e2]
      rw [hmap, sum_map_indicator hnd ha 3]
      simp [hA, hH]
    · by_cases hD : m.ftr = "D"
      · have hmap : (L.map (pointsFromMatch m)).sum
            = (L.map fun t => (if m.homeTeam = t then 1 else 0)
                + (if m.awayTeam = t then 1 else 0)).sum := by
          apply congrArg
          apply List.map_congr_left
          intro t _
          simp [pointsFromMatch, hD, hH, hA]
        rw [hmap, List.sum_map_add]
        rw [sum_map_indicator hnd hh 1, sum_map_indicator hnd ha 1]
        simp [hD, hH, hA]
      · have hmap : (L.map (pointsFromMatch m)).sum
            = (L.map fun _ => (0 : ℕ)).sum := by
          apply congrArg
          apply List.map_congr_left
          intro t _
          simp [pointsFromMatch, hH, hA, hD]
        rw [hmap]
        have hz : (L.map fun _ => (0 : ℕ)).sum = 0 := by simp
        simp [hz, hH, hA, hD]

theorem sum_teamPts (df : List MatchRow) (L : List String) (hnd : L.Nodup)
    (hcov : ∀ m ∈ df, m.homeTeam ∈ L ∧ m.awayTeam ∈ L) :
    (L.map (teamPts df)).sum =
      3 * df.countP (fun m => m.ftr == "H" || m.ftr == "A")
        + 2 * df.countP (fun m => m.ftr == "D") := by
  induction df with
  | nil =>
    have hz : (L.map (teamPts [])).sum = 0 := by
      apply List.sum_eq_zero
      intro y hy
      obtain ⟨t, _, rfl⟩ := List.mem_map.mp hy
      simp [teamPts]
    simp [hz]
  | cons m df ih =>
    have hcov' : ∀ m' ∈ df, m'.homeTeam ∈ L ∧ m'.awayTeam ∈ L :=
      fun m' hm' => hcov m' (List.mem_cons_of_mem m hm')
    have hstep : (L.map (teamPts (m :: df))).sum
        = (L.map (teamPts df)).sum + (L.map (pointsFromMatch m)).sum := by
      rw [← List.sum_map_add]
      apply congrArg
      apply List.map_congr_left
      intro t _
      exact teamPts_cons m df t
    rw [hstep, ih hcov', sum_pointsFromMatch hnd m (hcov m (List.mem_cons_self m df)).1
      (hcov m (List.mem_cons_self m df)).2]
    simp only [List.countP_cons]
    split_ifs <;> omega

theorem mem_allTeams_of {df : List MatchRow} {m : MatchRow} (hm : m ∈ df) :
    m.homeTeam ∈ allTeams df ∧ m.awayTeam ∈ allTeams df := by
  unfold allTeams
  rw [List.mem_insertionSort, List.mem_dedup, List.mem_append,
    List.mem_insertionSort, List.mem_dedup, List.mem_append]
  exact ⟨Or.inl (List.mem_map_of_mem _ hm), Or.inr (List.mem_map_of_mem _ hm)⟩

theorem allTeams_nodup (df : List MatchRow) : (allTeams df).Nodup :=
  (List.perm_insertionSort pyStrLe _).symm.nodup (List.nodup_dedup _)

theorem standingsRows_map_pts (df : List MatchRow) :
    (standingsRows df).map (·.pts) = (standingsSorted df).map (·.pts) := by
  unfold standingsRows
  rw [List.map_map]
  have hco : ((fun r : StandingsRow => r.pts) ∘ fun q : ℕ × StandingsRow =>
      ({ q.2 with pos := q.1 + 1 } : StandingsRow)) = fun q : ℕ × StandingsRow => q.2.pts := rfl
  rw [hco]
  have : (fun q : ℕ × StandingsRow => q.2.pts)
      = (fun r : StandingsRow => r.pts) ∘ Prod.snd := rfl
  rw [this, ← List.map_map, List.enum_map_snd]

/-- C6: the sum of the points column over the rows of `calculate_standings`
equals 3 times the number of matches whose stored full-time result is a
home or away win plus 2 times the number of stored draws. -/
theorem standings_points_sum (df : List MatchRow) (rows : List StandingsRow)
    (h : calculate_standings df = some rows) :
    (rows.map (·.pts)).sum =
      3 * df.countP (fun m => m.ftr == "H" || m.ftr == "A")
        + 2 * df.countP (fun m => m.ftr == "D") := by
  have hrows : rows = standingsRows df := by
    by_cases hdf : df = []
    · rw [calculate_standings, if_pos hdf] at h; cases h
    · rw [standings_eq_some hdf] at h
      exact (Option.some_injective _ h).symm
  subst hrows
  rw [standingsRows_map_pts]
  have hperm : List.Perm ((standingsSorted df).map (·.pts)) ((standingsBase df).map (·.pts)) :=
    (List.perm_insertionSort standingsGE _).map _
  rw [hperm.sum_eq]
  have hbase : (standingsBase df).map (·.pts) = (allTeams df).map (teamPts df) := by
    unfold standingsBase
    rw [List.map_map]
    apply List.map_congr_left
    intro t _
    exact rowFor_pts df t
  rw [hbase]
  exact sum_teamPts df (allTeams df) (allTeams_nodup df)
    (fun m hm => mem_allTeams_of hm)

/-- C6 witness: the sum identity evaluated on the concrete one-match
dataset. -/
theorem standings_points_sum_witness :
    ((standingsRows oneMatchDf).map (·.pts)).sum =
      3 * oneMatchDf.countP (fun m => m.ftr == "H" || m.ftr == "A")
        + 2 * oneMatchDf.countP (fun m => m.ftr == "D") :=
  standings_points_sum oneMatchDf (standingsRows oneMatchDf) (by decide)

theorem standingsRows_length (df : List MatchRow) :
    (standingsRows df).length = (standingsSorted df).length := by
  simp [standingsRows, List.enum_length]

theorem standingsRows_get_pts (df : List MatchRow) (i : ℕ)
    (hi : i < (standingsRows df).length) (hs : i < (standingsSorted df).length) :
    ((standingsRows df).get ⟨i, hi⟩).pts = ((standingsSorted df).get ⟨i, hs⟩).pts := by
  simp [standingsRows, List.getElem_map, List.getElem_enum]

theorem standingsRows_get_gd (df : List MatchRow) (i : ℕ)
    (hi : i < (standingsRows df).length) (hs : i < (standingsSorted df).length) :
    ((standingsRows df).get ⟨i, hi⟩).gd = ((standingsSorted df).get ⟨i, hs⟩).gd := by
  simp [standingsRows, List.getElem_map, List.getElem_enum]

theorem standingsRows_get_gf (df : List MatchRow) (i : ℕ)
    (hi : i < (standingsRows df).length) (hs : i < (standingsSorted df).length) :
    ((standingsRows df).get ⟨i, hi⟩).gf = ((standingsSorted df).get ⟨i, hs⟩).gf := by
  simp [standingsRows, List.getElem_map, List.getElem_enum]

theorem standingsRows_get_pos (df : List MatchRow) (i : ℕ)
    (hi : i < (standingsRows df).length) :
    ((standingsRows df).get ⟨i, hi⟩).pos = i + 1 := by
  simp [standingsRows, List.getElem_map, List.getElem_enum]

/-- C7: the rows of `calculate_standings` are ordered with non-increasing
points, non-increasing goal difference among equal points, non-increasing
goals-for among equal points and goal difference, and the `Pos` field of
the row at 0-based index `i` is `i + 1`. -/
theorem standings_order_spec (df : List MatchRow) (rows : List StandingsRow)
    (h : calculate_standings df = some rows) :
    (∀ i j (hi : i < rows.length) (hj : j < rows.length), i < j →
      ((rows.get ⟨j, hj⟩).pts ≤ (rows.get ⟨i, hi⟩).pts ∧
       ((rows.get ⟨j, hj⟩).pts = (rows.get ⟨i, hi⟩).pts →
         (rows.get ⟨j, hj⟩).gd ≤ (rows.get ⟨i, hi⟩).gd) ∧
       ((rows.get ⟨j, hj⟩).pts = (rows.get ⟨i, hi⟩).pts →
         (rows.get ⟨j, hj⟩).gd = (rows.get ⟨i, hi⟩).gd →
         (rows.get ⟨j, hj⟩).gf ≤ (rows.get ⟨i, hi⟩).gf))) ∧
    (∀ i (hi : i < rows.length), (rows.get ⟨i, hi⟩).pos = i + 1) := by
  have hrows : rows = standingsRows df := by
    by_cases hdf : df = []
    · rw [calculate_standings, if_pos hdf] at h; cases h
    · rw [standings_eq_some hdf] at h
      exact (Option.some_injective _ h).symm
  subst hrows
  have hsor : List.Pairwise standingsGE (standingsSorted df) :=
    List.sorted_insertionSort standingsGE (standingsBase df)
  have hpair := List.pairwise_iff_getElem.mp hsor
  constructor
  · intro i j hi hj hij
    have hsi : i < (standingsSorted df).length := by rwa [standingsRows_length] at hi
    have hsj : j < (standingsSorted df).length := by rwa [standingsRows_length] at hj
    have hij2 := hpair i j hsi hsj hij
    rw [standingsRows_get_pts df i hi hsi, standingsRows_get_pts df j hj hsj,
      standingsRows_get_gd df i hi hsi, standingsRows_get_gd df j hj hsj,
      standingsRows_get_gf df i hi hsi, standingsRows_get_gf df j hj hsj]
    unfold standingsGE at hij2
    simp only [List.get_eq_getElem]
    omega
  · intro i hi
    exact standingsRows_get_pos df i hi

/-- C7 witness: positions and ordering on the concrete one-match dataset. -/
theorem standings_order_spec_witness :
    ((standingsRows oneMatchDf).get ⟨0, by decide⟩).pos = 1 ∧
    ((standingsRows oneMatchDf).get ⟨1, by decide⟩).pos = 2 ∧
    ((standingsRows oneMatchDf).get ⟨1, by decide⟩).pts ≤
      ((standingsRows oneMatchDf).get ⟨0, by decide⟩).pts := by
  have h := standings_order_spec oneMatchDf (standingsRows oneMatchDf) (by decide)
  exact ⟨h.2 0 (by decide), h.2 1 (by decide),
    (h.1 0 1 (by decide) (by decide) (by decide)).1⟩

theorem standingSignal_pos (pos : ℕ) : 0 < standingSignal pos := by
  unfold standingSignal
  positivity

theorem momentumShares_nonneg {mA mB : ℚ} (hA : 0 ≤ mA) (hB : 0 ≤ mB) :
    0 ≤ (momentumShares mA mB).1 ∧ 0 ≤ (momentumShares mA mB).2 := by
  unfold momentumShares
  split_ifs with h
  · exact ⟨div_nonneg hA (le_of_lt h), div_nonneg hB (le_of_lt h)⟩
  · norm_num

theorem h2hShares_nonneg (h2h : H2HStats) :
    0 ≤ (h2hShares h2h).1 ∧ 0 ≤ (h2hShares h2h).2 := by
  unfold h2hShares
  split_ifs with h
  · constructor <;> · apply div_nonneg <;> positivity
  · norm_num

theorem homeAdvShares_pos (a b home : String) :
    0 < (homeAdvShares a b home).1 ∧ 0 < (homeAdvShares a b home).2 := by
  unfold homeAdvShares
  split_ifs <;> norm_num

theorem blendSignals_pos {mom h2h adv stand : ℚ} (h1 : 0 ≤ mom) (h2 : 0 ≤ h2h)
    (h3 : 0 < adv) (h4 : 0 < stand) : 0 < blendSignals mom h2h adv stand := by
  unfold blendSignals
  have e1 : 0 ≤ mom * (2 / 5) := by positivity
  have e2 : 0 ≤ h2h * (3 / 10) := by positivity
  have e3 : 0 < adv * (3 / 20) := by positivity
  have e4 : 0 < stand * (3 / 20) := by positivity
  linarith

theorem pyRound_25 : pyRound 25 1 = 25 := by
  norm_num [pyRound, rhe]

theorem winProbParts_core (a b home : String) (probA probB : ℚ)
    (hpA : 0 < probA) (hpB : 0 < probB) :
    ∃ s : ℚ, 0 ≤ s ∧ s ≤ 1 ∧
      pyRound ((if home = a then probA / (probA + probB) * (1 - 1 / 4)
        else if home = b then probB / (probA + probB) * (1 - 1 / 4)
        else probA / (probA + probB) * (1 - 1 / 4)) * 100) 1 = pyRound (s * 75) 1 ∧
      pyRound ((if home = a then probB / (probA + probB) * (1 - 1 / 4)
        else if home = b then probA / (probA + probB) * (1 - 1 / 4)
        else probB / (probA + probB) * (1 - 1 / 4)) * 100) 1 =
          pyRound ((1 - s) * 75) 1 := by
  have htot : 0 < probA + probB := by linarith
  have hsum : probA / (probA + probB) + probB / (probA + probB) = 1 := by
    field_simp
  by_cases hha : home = a
  · refine ⟨probA / (probA + probB), div_nonneg (le_of_lt hpA) (le_of_lt htot),
      (div_le_one htot).mpr (by linarith), ?_, ?_⟩
    · rw [if_pos hha]
      apply congrArg (fun x => pyRound x 1)
      ring
    · rw [if_pos hha]
      have h1s : 1 - probA / (probA + probB) = probB / (probA + probB) := by linarith
      rw [h1s]
      apply congrArg (fun x => pyRound x 1)
      ring
  · by_cases hhb : home = b
    · refine ⟨probB / (probA + probB), div_nonneg (le_of_lt hpB) (le_of_lt htot),
        (div_le_one htot).mpr (by linarith), ?_, ?_⟩
      · rw [if_neg hha, if_pos hhb]
        apply congrArg (fun x => pyRound x 1)
        ring
      · rw [if_neg hha, if_pos hhb]
        have h1s : 1 - probB / (probA + probB) = probA / (probA + probB) := by linarith
        rw [h1s]
        apply congrArg (fun x => pyRound x 1)
        ring
    · refine ⟨probA / (probA + probB), div_nonneg (le_of_lt hpA) (le_of_lt htot),
        (div_le_one htot).mpr (by linarith), ?_, ?_⟩
      · rw [if_neg hha, if_neg hhb]
        apply congrArg (fun x => pyRound x 1)
        ring
      · rw [if_neg hha, if_neg hhb]
        have h1s : 1 - probA / (probA + probB) = probB / (probA + probB) := by linarith
        rw [h1s]
        apply congrArg (fun x => pyRound x 1)
        ring

theorem winProbFromParts_spec (a b home : String) (posA posB : ℕ)
    (mA mB : ℚ) (h2h : H2HStats) (hA : 0 ≤ mA) (hB : 0 ≤ mB) :
    ∃ s : ℚ, 0 ≤ s ∧ s ≤ 1 ∧
      (winProbFromParts a b home posA posB mA mB h2h).home_win = pyRound (s * 75) 1 ∧
      (winProbFromParts a b home posA posB mA mB h2h).draw = 25 ∧
      (winProbFromParts a b home posA posB mA mB h2h).away_win =
        pyRound ((1 - s) * 75) 1 := by
  have hpA : 0 < blendSignals (momentumShares mA mB).1 (h2hShares h2h).1
      (homeAdvShares a b home).1 (standingSignal posA) :=
    blendSignals_pos (momentumShares_nonneg hA hB).1 (h2hShares_nonneg h2h).1
      (homeAdvShares_pos a b home).1 (standingSignal_pos posA)
  have hpB : 0 < blendSignals (momentumShares mA mB).2 (h2hShares h2h).2
      (homeAdvShares a b home).2 (standingSignal posB) :=
    blendSignals_pos (momentumShares_nonneg hA hB).2 (h2hShares_nonneg h2h).2
      (homeAdvShares_pos a b home).2 (standingSignal_pos posB)
  obtain ⟨s, hs0, hs1, hhw, haw⟩ := winProbParts_core a b home _ _ hpA hpB
  refine ⟨s, hs0, hs1, hhw, ?_, haw⟩
  show pyRound ((1 / 4 : ℚ) * 100) 1 = 25
  norm_num
  exact pyRound_25

/-- C5: whenever `calculate_win_probability` returns a result for a pair of
distinct teams, its draw share is the fixed 25.0, its home and away shares
are the one-decimal roundings of `s * 75` and `(1 - s) * 75` for the
normalized home-side share `s ∈ [0, 1]`, and the three percentages sum to
a value in `[99.9, 100.1]`. -/
theorem winprob_sum_spec (df : List MatchRow) (a b home : String)
    (r : WinProbability) (_hab : a ≠ b)
    (h : calculate_win_probability df a b home = some r) :
    r.draw = 25 ∧
    (∃ s : ℚ, 0 ≤ s ∧ s ≤ 1 ∧ r.home_win = pyRound (s * 75) 1 ∧
      r.away_win = pyRound ((1 - s) * 75) 1) ∧
    999 / 10 ≤ r.home_win + r.draw + r.away_win ∧
    r.home_win + r.draw + r.away_win ≤ 1001 / 10 := by
  by_cases hdf : df = []
  · rw [hdf] at h
    simp [calculate_win_probability, calculate_standings] at h
  · rw [winprob_eq df a b home hdf] at h
    have hr : r = winProbFromParts a b home
        (posOf (standingsRows df) a) (posOf (standingsRows df) b)
        (pyRound (weightedFormScore (calculate_form_for_team df a 5)) 2)
        (pyRound (weightedFormScore (calculate_form_for_team df b 5)) 2)
        (get_head_to_head_stats df a b) := (Option.some_injective _ h).symm
    obtain ⟨s, hs0, hs1, hhw, hdr, haw⟩ := winProbFromParts_spec a b home
      (posOf (standingsRows df) a) (posOf (standingsRows df) b)
      (pyRound (weightedFormScore (calculate_form_for_team df a 5)) 2)
      (pyRound (weightedFormScore (calculate_form_for_team df b 5)) 2)
      (get_head_to_head_stats df a b)
      (pyRound_nonneg (weightedFormScore_nonneg _) 2)
      (pyRound_nonneg (weightedFormScore_nonneg _) 2)
    rw [hr]
    refine ⟨hdr, ⟨s, hs0, hs1, hhw, haw⟩, ?_, ?_⟩
    · have h1 := neg_le_pyRound_one_sub (s * 75)
      have h2 := neg_le_pyRound_one_sub ((1 - s) * 75)
      rw [hhw, hdr, haw]
      have hsum : s * 75 + (1 - s) * 75 = 75 := by ring
      linarith
    · have h1 := pyRound_one_sub_le (s * 75)
      have h2 := pyRound_one_sub_le ((1 - s) * 75)
      rw [hhw, hdr, haw]
      have hsum : s * 75 + (1 - s) * 75 = 75 := by ring
      linarith

/-- C5 witness: the bound instantiated on the concrete one-match dataset,
where the code returns 62.5 / 25.0 / 12.5. -/
theorem winprob_sum_spec_witness :
    (999 / 10 : ℚ) ≤ 125 / 2 + 25 + 25 / 2 ∧
    (125 / 2 : ℚ) + 25 + 25 / 2 ≤ 1001 / 10 := by
  have hpos1 : posOf (standingsRows oneMatchDf) "Arsenal" = 1 := by decide
  have hpos2 : posOf (standingsRows oneMatchDf) "Chelsea" = 2 := by decide
  have hform1 : calculate_form_for_team oneMatchDf "Arsenal" 5 = ['W'] := by decide
  have hform2 : calculate_form_for_team oneMatchDf "Chelsea" 5 = ['L'] := by decide
  have hh2h : get_head_to_head_stats oneMatchDf "Arsenal" "Chelsea" =
      { total_matches := 1, team_a_wins := 1, team_b_wins := 0, draws := 0,
        team_a_goals := 2, team_b_goals := 1, matchRows := oneMatchDf } := by decide
  have hpW : pointsOfLetter 'W' = 3 := by decide
  have hpL : pointsOfLetter 'L' = 0 := by decide
  have hmW : pyRound (weightedFormScore ['W']) 2 = 9 / 2 := by
    have hsW : weightedFormScore ['W'] = 9 / 2 := by
      norm_num [weightedFormScore, momentumWeights, hpW]
    rw [hsW]
    norm_num [pyRound, rhe]
  have hmL : pyRound (weightedFormScore ['L']) 2 = 0 := by
    have hsL : weightedFormScore ['L'] = 0 := by
      norm_num [weightedFormScore, momentumWeights, hpL]
    rw [hsL]
    exact pyRound_zero 2
  have heval : calculate_win_probability oneMatchDf "Arsenal" "Chelsea" "Arsenal" =
      some { home_win := 125 / 2, draw := 25, away_win := 25 / 2, confidence := "Medium" } := by
    rw [winprob_eq oneMatchDf "Arsenal" "Chelsea" "Arsenal" (by decide),
      hpos1, hpos2, hform1, hform2, hh2h, hmW, hmL]
    norm_num [winProbFromParts, momentumShares, h2hShares, homeAdvShares,
      blendSignals, standingSignal, confidenceLabel, pyRound, rhe]
  have h := winprob_sum_spec oneMatchDf "Arsenal" "Chelsea" "Arsenal"
    { home_win := 125 / 2, draw := 25, away_win := 25 / 2, confidence := "Medium" }
    (by decide) heval
  exact ⟨h.2.2.1, h.2.2.2⟩

end EPL
